import Mathlib

/-!
Verification of the Instance Lifecycle & Session Manager of the WhatsApp
gateway (`src/lib/whatsapp.ts`, with the previous-generation manager in
`src/lib/whatsapp.old.ts`).

The manager state is embedded shallowly: the in-memory `instances` Map is an
association list from instance id to a heap reference, the heap is a list of
`WAInstance` records (so that, as in JavaScript, an instance object can stay
alive and be mutated after its Map entry is deleted or overwritten), and the
per-session monitor loops, emitted events, persisted DB statuses and in-page
bridge calls are explicit logs.  Page observations (presence of the main pane
element, of a QR canvas, of `window.WPP`) are inputs to the relevant steps.
-/

namespace WhatsAppGateway

/-- Session status, `WAInstance.status` in `whatsapp.ts`. -/
inductive Status
  | disconnected
  | connecting
  | connected
  | qr
  deriving DecidableEq, Repr

/-- The in-memory session record (`WAInstance` in `whatsapp.ts`).  The
`wppLoaded` flag models whether `window.WPP` is available in the session's
page (page state, observed and written through the page handle). -/
structure WAInstance where
  id : String
  status : Status
  qrCode : Option String
  qrCodeBase64 : Option String
  wppLoaded : Bool
  deriving DecidableEq, Repr

/-- Lifecycle events emitted by the manager (`this.emit(...)`). -/
inductive WAEventRec
  | status_change (instanceId : String) (status : Status)
  | disconnected (instanceId : String)
  | qrEvent (instanceId : String) (qr : String) (qrBase64 : String)
  | ready (instanceId : String)
  | authenticated (instanceId : String)
  deriving DecidableEq, Repr

/-- A call made inside the page via the injected WPP bridge
(`page.evaluate(... window.WPP.chat.sendTextMessage ...)`). -/
structure BridgeCall where
  fn : String
  chatId : String
  content : String
  deriving DecidableEq, Repr

/-- State of one monitor polling loop (`monitorState`): the closure variables
`attempts` and whether `checkInterval` is still scheduled, plus the instance
object the closure captured. -/
structure MonitorSt where
  ref : Nat
  instanceId : String
  attempts : Nat
  active : Bool
  deriving DecidableEq, Repr

/-- Association-list lookup, modelling JavaScript `Map.get`. -/
def mapLookup {β : Type} (k : String) : List (String × β) → Option β
  | [] => none
  | (k', v) :: rest => if k' = k then some v else mapLookup k rest

/-- Association-list insertion, modelling JavaScript `Map.set` (overwrite the
existing entry for the key, else append). -/
def mapSet {β : Type} (k : String) (v : β) : List (String × β) → List (String × β)
  | [] => [(k, v)]
  | (k', v') :: rest => if k' = k then (k, v) :: rest else (k', v') :: mapSet k v rest

/-- Association-list removal, modelling JavaScript `Map.delete` (Map keys are
unique, so removing every matching entry agrees with removing the entry). -/
def mapDelete {β : Type} (k : String) : List (String × β) → List (String × β)
  | [] => []
  | (k', v) :: rest => if k' = k then mapDelete k rest else (k', v) :: mapDelete k rest

/-- Heap read: dereference an instance-object reference. -/
def listGet {α : Type} : List α → Nat → Option α
  | [], _ => none
  | x :: _, 0 => some x
  | _ :: rest, n + 1 => listGet rest n

/-- Heap write: mutate the object behind a reference in place. -/
def listSet {α : Type} : List α → Nat → α → List α
  | [], _, _ => []
  | _ :: rest, 0, v => v :: rest
  | x :: rest, n + 1, v => x :: listSet rest n v

/-- Decidable equality for results of fallible operations. -/
instance exceptDecEq {ε α : Type} [DecidableEq ε] [DecidableEq α] :
    DecidableEq (Except ε α) := fun a b =>
  match a, b with
  | .error e, .error f =>
    if h : e = f then .isTrue (by rw [h]) else .isFalse (fun hh => h (by cases hh; rfl))
  | .error _, .ok _ => .isFalse (fun hh => by cases hh)
  | .ok _, .error _ => .isFalse (fun hh => by cases hh)
  | .ok x, .ok y =>
    if h : x = y then .isTrue (by rw [h]) else .isFalse (fun hh => h (by cases hh; rfl))

/-- Whole state of a `WhatsAppManager`: the `instances` Map (id to heap
reference), the heap of live instance objects, the monitor loops, the
`alwaysOnlineIntervals` Map (declared in `whatsapp.ts` but never written by
the current code), and logs of emitted events, persisted statuses
(`prisma.instance.update`) and in-page bridge calls. -/
structure MState where
  heap : List WAInstance
  instances : List (String × Nat)
  alwaysOnlineIntervals : List (String × Nat)
  monitors : List MonitorSt
  events : List WAEventRec
  db : List (String × String)
  bridgeCalls : List BridgeCall
  deriving DecidableEq, Repr

/-- The manager right after construction: empty session table. -/
def mInit : MState :=
  { heap := [], instances := [], alwaysOnlineIntervals := [], monitors := []
    events := [], db := [], bridgeCalls := [] }

/-- Result type of `getStatus`. -/
inductive StatusResult
  | not_found
  | status (s : Status)
  deriving DecidableEq, Repr

/-- `getStatus` (`whatsapp.ts` 395-399): pure lookup in the `instances` Map.
(The dangling-reference branch is a modelling artifact: table references
always point into the heap.) -/
def getStatus (m : MState) (instanceId : String) : StatusResult :=
  match mapLookup instanceId m.instances with
  | none => .not_found
  | some r =>
    match listGet m.heap r with
    | none => .not_found
    | some inst => .status inst.status

/-- `getQRCode` (`whatsapp.ts` 401-404): returns
`{ qr: instance?.qrCode, qrBase64: instance?.qrCodeBase64 }`. -/
def getQRCode (m : MState) (instanceId : String) : Option String × Option String :=
  match mapLookup instanceId m.instances with
  | none => (none, none)
  | some r =>
    match listGet m.heap r with
    | none => (none, none)
    | some inst => (inst.qrCode, inst.qrCodeBase64)

/-- `getAllInstances` (`whatsapp.ts` 591). -/
def getAllInstances (m : MState) : List String :=
  m.instances.map Prod.fst

/-- The freshly built instance object at the end of `createInstance`
(`whatsapp.ts` 241-246): `status: 'disconnected'`, no QR captured yet. -/
def newInstance (instanceId : String) : WAInstance :=
  { id := instanceId, status := .disconnected, qrCode := none, qrCodeBase64 := none
    wppLoaded := false }

/-- `createInstance` (`whatsapp.ts` 73-264), sequential execution: throws if
the Map already has the id, otherwise builds a fresh context/page/instance
object, stores it under the id and returns it.  Browser/context/proxy/route
setup only affects the page, not the manager state modelled here.  Returns
the result together with the post-state (a throw leaves the state as it
was). -/
def createInstance (m : MState) (instanceId : String) : Except String Nat × MState :=
  if (mapLookup instanceId m.instances).isSome then
    (.error ("Instance " ++ instanceId ++ " already exists"), m)
  else
    let r := m.heap.length
    (.ok r, { m with heap := m.heap ++ [newInstance instanceId]
                     instances := mapSet instanceId r m.instances })

/-- The `context.on('close', ...)` handler registered in `createInstance`
(`whatsapp.ts` 251-261): persist `DISCONNECTED`, set the captured instance
object's status to `disconnected`, delete the Map entry for the id, emit a
`disconnected` event. -/
def closeHandler (m : MState) (instanceId : String) (r : Nat) : MState :=
  let heap' :=
    match listGet m.heap r with
    | some inst => listSet m.heap r { inst with status := .disconnected }
    | none => m.heap
  { m with db := mapSet instanceId "DISCONNECTED" m.db
           heap := heap'
           instances := mapDelete instanceId m.instances
           events := m.events ++ [.disconnected instanceId] }

/-- The tail of `connect` (`whatsapp.ts` 270-281) once the instance object is
in hand: return it unchanged when already `connected`/`connecting`, otherwise
flip the status to `connecting` and emit `status_change`.  The background
`initializePage` launch is the separate step `initializeBackground`. -/
def connectExisting (m : MState) (instanceId : String) (r : Nat) :
    Except String Nat × MState :=
  match listGet m.heap r with
  | none => (.ok r, m)
  | some inst =>
    if inst.status = .connected ∨ inst.status = .connecting then (.ok r, m)
    else
      (.ok r, { m with heap := listSet m.heap r { inst with status := .connecting }
                       events := m.events ++ [.status_change instanceId .connecting] })

/-- `connect` (`whatsapp.ts` 266-282), sequential execution: reuse the mapped
instance or create one, then `connectExisting`. -/
def connect (m : MState) (instanceId : String) : Except String Nat × MState :=
  match mapLookup instanceId m.instances with
  | some r => connectExisting m instanceId r
  | none =>
    match createInstance m instanceId with
    | (.error e, m') => (.error e, m')
    | (.ok r, m') => connectExisting m' instanceId r

/-- Outcome of the page navigation attempted by `initializePage`:
`page.goto('https://web.whatsapp.com')` either succeeds (after which script
injection reports whether `window.WPP` became available) or rejects. -/
inductive NavResult
  | success (wppOk : Bool)
  | failure (msg : String)
  deriving DecidableEq, Repr

/-- `injectWPPScript` (`whatsapp.ts` 308-329): attempts to add the WPP bridge
script to the page; a failed injection is caught and only logged, leaving the
page without `window.WPP`. -/
def injectWPPScript (inst : WAInstance) (wppOk : Bool) : WAInstance :=
  if wppOk then { inst with wppLoaded := true } else inst

/-- `monitorState` entry (`whatsapp.ts` 331-335): `setInterval` registers a
fresh polling loop for the instance with `attempts = 0`. -/
def monitorStart (m : MState) (instanceId : String) (r : Nat) : MState :=
  { m with monitors :=
      m.monitors ++ [{ ref := r, instanceId := instanceId, attempts := 0, active := true }] }

/-- `initializePage` (`whatsapp.ts` 284-306): navigate, inject the bridge,
start the monitor.  The entire body is wrapped in `try { ... } catch (error)
{ logger.error(...) }`, so a navigation failure is swallowed inside and the
returned promise always resolves — hence the `.ok m` in the failure case. -/
def initializePage (m : MState) (instanceId : String) (r : Nat) (nav : NavResult) :
    Except String MState :=
  match nav with
  | .failure _ => .ok m
  | .success wppOk =>
    let m' :=
      match listGet m.heap r with
      | some inst => { m with heap := listSet m.heap r (injectWPPScript inst wppOk) }
      | none => m
    .ok (monitorStart m' instanceId r)

/-- The fire-and-forget launch in `connect` (`whatsapp.ts` 276-279):
`this.initializePage(instance).catch(err => { logger.error(...);
instance.status = 'disconnected' })`.  The rejection handler flips the status
back to `disconnected`; it fires only if `initializePage` rejects. -/
def initializeBackground (m : MState) (instanceId : String) (r : Nat) (nav : NavResult) :
    MState :=
  match initializePage m instanceId r nav with
  | .ok m' => m'
  | .error _ =>
    match listGet m.heap r with
    | some inst => { m with heap := listSet m.heap r { inst with status := .disconnected } }
    | none => m

/-- What one monitor tick observes in the page: the `#pane-side` element
(connected marker), a QR `canvas` and its `toDataURL()` payload (`none`
models a `null` data URL), whether `window.WPP` is defined at the re-check,
whether a re-injection attempt would succeed, and whether the page read threw
a transient error. -/
structure PageObs where
  paneSide : Bool
  canvas : Bool
  canvasDataUrl : Option String
  wppAvailable : Bool
  reinjectOk : Bool
  err : Bool
  deriving DecidableEq, Repr

/-- One tick of the `monitorState` polling loop (`whatsapp.ts` 335-392) for
the `j`-th registered monitor.  Mirrors the source: a cleared interval no
longer fires; `if (attempts > 120) { clearInterval; return; }`; `attempts++`;
then inside `try`: the connected branch (set status `connected`, clear both
QR fields, re-inject WPP if unavailable, persist `CONNECTED`, emit `ready`
and `authenticated`, clear the interval) or the QR branch (on a new canvas
payload set status `qr`, store it in both QR fields, emit `qr`); transient
errors are swallowed. -/
def monitorTick (m : MState) (j : Nat) (obs : PageObs) : MState :=
  match listGet m.monitors j with
  | none => m
  | some mon =>
    if mon.active = false then m
    else if 120 < mon.attempts then
      { m with monitors := listSet m.monitors j { mon with active := false } }
    else
      let mon' := { mon with attempts := mon.attempts + 1 }
      let m' := { m with monitors := listSet m.monitors j mon' }
      if obs.err then m'
      else
        match listGet m'.heap mon'.ref with
        | none => m'
        | some inst =>
          if obs.paneSide then
            if inst.status = .connected then m'
            else
              let wpp := if obs.wppAvailable then true else obs.reinjectOk
              { m' with
                  heap := listSet m'.heap mon'.ref
                    { inst with status := .connected, qrCode := none
                                qrCodeBase64 := none, wppLoaded := wpp }
                  db := mapSet mon'.instanceId "CONNECTED" m'.db
                  events := m'.events ++ [.ready mon'.instanceId, .authenticated mon'.instanceId]
                  monitors := listSet m'.monitors j { mon' with active := false } }
          else if obs.canvas then
            match obs.canvasDataUrl with
            | none => m'
            | some qrB =>
              if inst.qrCodeBase64 = some qrB then m'
              else
                { m' with
                    heap := listSet m'.heap mon'.ref
                      { inst with status := .qr, qrCode := some qrB, qrCodeBase64 := some qrB }
                    events := m'.events ++ [.qrEvent mon'.instanceId qrB qrB] }
          else m'

/-- `logout` (`whatsapp.ts` 576-582): `context.close()` fires the registered
close listener (the authoritative teardown), then the Map entry is deleted
(already gone by then, so the second delete is a no-op). -/
def logout (m : MState) (instanceId : String) : MState :=
  match mapLookup instanceId m.instances with
  | none => m
  | some r =>
    let m' := closeHandler m instanceId r
    { m' with instances := mapDelete instanceId m'.instances }

/-- `resolveChatId` (`whatsapp.ts` 515):
`number.includes('@') ? number : number + '@c.us'`. -/
def resolveChatId (number : String) : String :=
  if number.contains '@' then number else number ++ "@c.us"

/-- `sendMessage` (`whatsapp.ts` 471-489): throws `Instance not connected`
unless the mapped instance has status `connected`; computes the chat id
inline (`to.includes('@') ? to : to + '@c.us'`); the `page.evaluate` throws
`WPP not loaded` when `window.WPP` is undefined, otherwise calls
`WPP.chat.sendTextMessage(chatId, content)` inside the page. -/
def sendMessage (m : MState) (instanceId toDest content : String) :
    Except String String × MState :=
  match mapLookup instanceId m.instances with
  | none => (.error "Instance not connected", m)
  | some r =>
    match listGet m.heap r with
    | none => (.error "Instance not connected", m)
    | some inst =>
      if inst.status = .connected then
        let chatId := if toDest.contains '@' then toDest else toDest ++ "@c.us"
        if inst.wppLoaded then
          (.ok chatId,
            { m with bridgeCalls :=
                m.bridgeCalls ++ [{ fn := "sendTextMessage", chatId := chatId, content := content }] })
        else (.error "WPP not loaded", m)
      else (.error "Instance not connected", m)

/-- `sendText` (`whatsapp.ts` 541-543): delegates to `sendMessage`. -/
def sendText (m : MState) (instanceId toDest content : String) :
    Except String String × MState :=
  sendMessage m instanceId toDest content

/-- `sendMedia` (`whatsapp.ts` 530): `async sendMedia(...) { }` — an
unimplemented stub that resolves immediately with no status check and no
bridge call. -/
def sendMedia (m : MState) (_instanceId _to _mediaUrl : String) :
    Except String Unit × MState :=
  (.ok (), m)

/-- `sendLocation` (`whatsapp.ts` 532): unimplemented stub. -/
def sendLocation (m : MState) (_instanceId _to : String) (_latitude _longitude : Int) :
    Except String Unit × MState :=
  (.ok (), m)

/-- `sendContact` (`whatsapp.ts` 533): unimplemented stub. -/
def sendContact (m : MState) (_instanceId _to _contactId : String) :
    Except String Unit × MState :=
  (.ok (), m)

/-- `sendPoll` (`whatsapp.ts` 534): unimplemented stub. -/
def sendPoll (m : MState) (_instanceId _to _title : String) (_options : List String) :
    Except String Unit × MState :=
  (.ok (), m)

/-- `sendPresence` (`whatsapp.ts` 535): unimplemented stub. -/
def sendPresence (m : MState) (_instanceId _to _presence : String) :
    Except String Unit × MState :=
  (.ok (), m)

/-- `editMessage` (`whatsapp.ts` 536): unimplemented stub. -/
def editMessage (m : MState) (_instanceId _messageId _newText : String) :
    Except String Unit × MState :=
  (.ok (), m)

/-- `reactToMessage` (`whatsapp.ts` 537): unimplemented stub. -/
def reactToMessage (m : MState) (_instanceId _messageId _reaction : String) :
    Except String Unit × MState :=
  (.ok (), m)

/-- `deleteMessage` (`whatsapp.ts` 538): unimplemented stub. -/
def deleteMessage (m : MState) (_instanceId _messageId : String) (_forEveryone : Bool) :
    Except String Unit × MState :=
  (.ok (), m)

/-- `createGroup` (`whatsapp.ts` 517): unimplemented stub (returns `{}`). -/
def createGroup (m : MState) (_instanceId _name : String) (_participants : List String) :
    Except String Unit × MState :=
  (.ok (), m)

/-- `archiveChat` (`whatsapp.ts` 508): unimplemented stub. -/
def archiveChat (m : MState) (_instanceId _chatId : String) :
    Except String Unit × MState :=
  (.ok (), m)

/-- `updateInstanceSettings` (`whatsapp.ts` 561-563):
`async updateInstanceSettings(_id, _settings) { ... }` with an empty body —
an unimplemented stub that touches nothing. -/
def updateInstanceSettings (m : MState) (_id : String) (_settings : List (String × Bool)) :
    MState :=
  m

/-- `reconnectAll` (`whatsapp.ts` 459-464): for each instance whose persisted
status was `CONNECTED`, fire `this.connect(inst.id)` without awaiting and
without any delay between loop iterations.  The trace records, for each id,
the time in milliseconds (since `reconnectAll` began) at which its `connect`
call is issued; time only advances at an `await` of a timer, and the loop
contains none. -/
def reconnectAllTrace : List String → Nat → List (String × Nat)
  | [], _ => []
  | id :: rest, now => (id, now) :: reconnectAllTrace rest now

/-- `reconnectAll` of the previous generation (`whatsapp.old.ts` 1078-1114):
restores each previously-connected instance and, between successive
instances (`if (i < instances.length - 1)`), awaits a 2000 ms timeout. -/
def reconnectAllOldTrace : List String → Nat → List (String × Nat)
  | [], _ => []
  | [id], now => [(id, now)]
  | id :: rest, now => (id, now) :: reconnectAllOldTrace rest (now + 2000)

/-- Whether a list of tick timestamps is strictly increasing. -/
def strictIncrB : List Nat → Bool
  | [] => true
  | [_] => true
  | a :: b :: rest => decide (a < b) && strictIncrB (b :: rest)

/-- Atomic steps of the manager, sequential interleaving: each constructor is
one of the operations above, with page observations and navigation outcomes
supplied as inputs.  `closeCtx` is the browsing-context close event for the
object `r` registered under `instanceId`; `bgInit` is the background
initialization launched by `connect` completing with outcome `nav`. -/
inductive MAction
  | createAct (instanceId : String)
  | connectAct (instanceId : String)
  | bgInit (instanceId : String) (r : Nat) (nav : NavResult)
  | closeCtx (instanceId : String) (r : Nat)
  | tick (j : Nat) (obs : PageObs)
  | logoutAct (instanceId : String)
  | sendMessageAct (instanceId toDest content : String)
  deriving DecidableEq, Repr

/-- Apply one atomic manager step. -/
def step (m : MState) : MAction → MState
  | .createAct instanceId => (createInstance m instanceId).2
  | .connectAct instanceId => (connect m instanceId).2
  | .bgInit instanceId r nav => initializeBackground m instanceId r nav
  | .closeCtx instanceId r => closeHandler m instanceId r
  | .tick j obs => monitorTick m j obs
  | .logoutAct instanceId => logout m instanceId
  | .sendMessageAct instanceId toDest content => (sendMessage m instanceId toDest content).2

/-- Run a sequence of atomic manager steps. -/
def run (m : MState) : List MAction → MState
  | [] => m
  | a :: rest => run (step m a) rest

/-- Whether an action is a `connect`/`createInstance` call for the given id
(the only actions that can put an entry for the id back into the Map). -/
def isConnectFor (instanceId : String) : MAction → Bool
  | .createAct i => i == instanceId
  | .connectAct i => i == instanceId
  | _ => false

/-- How many monitor polling loops have been started for the given id. -/
def monitorsFor (m : MState) (instanceId : String) : Nat :=
  (m.monitors.filter (fun mon => mon.instanceId == instanceId)).length

/-!
## Interleaved execution of two concurrent `connect` calls

`connect` and `createInstance` are `async`: every `await` suspends the
running call and lets another call for the same id run.  The phases below cut
one `connect(instanceId)` run at its suspension points:

* `entry`: the synchronous prefix — `this.instances.get(instanceId)` in
  `connect` and, when that misses, the `this.instances.has(instanceId)` check
  at the top of `createInstance` (no `await` separates them); the call then
  suspends at `await prisma.instance.findUnique(...)`.  When the `get` hits,
  the status check runs in the same block: an already
  `connected`/`connecting` instance is returned unchanged, otherwise the
  status flips to `connecting` and initialization starts.
* `inCreate`: the remainder of `createInstance` — context and page creation,
  building the instance object (status `disconnected`), `instances.set`,
  close-listener registration — followed by the `connect` continuation
  (status check on the fresh object, status to `connecting`, `status_change`
  event, fire-and-forget `initializePage`), suspending at `await page.goto`.
* `initing r`: the remainder of `initializePage` — script injection and
  `monitorState`, whose `setInterval` registers the polling loop.

Running a phase to completion before the other thread resumes is one legal
schedule of the event loop (each block runs between two suspension points of
the other call). -/

/-- Progress of one thread executing `connect(instanceId)`. -/
inductive ConnPhase
  | entry
  | inCreate
  | initing (r : Nat)
  | done (r : Nat)
  deriving DecidableEq, Repr

/-- Execute the current phase of one `connect(instanceId)` thread. -/
def connThreadStep (m : MState) (instanceId : String) : ConnPhase → MState × ConnPhase
  | .entry =>
    match mapLookup instanceId m.instances with
    | some r =>
      match listGet m.heap r with
      | none => (m, .done r)
      | some inst =>
        if inst.status = .connected ∨ inst.status = .connecting then (m, .done r)
        else
          ({ m with heap := listSet m.heap r { inst with status := .connecting }
                    events := m.events ++ [.status_change instanceId .connecting] },
           .initing r)
    | none => (m, .inCreate)
  | .inCreate =>
    let r := m.heap.length
    let m1 := { m with heap := m.heap ++ [newInstance instanceId]
                       instances := mapSet instanceId r m.instances }
    let m2 :=
      match listGet m1.heap r with
      | some inst =>
        { m1 with heap := listSet m1.heap r { inst with status := .connecting }
                  events := m1.events ++ [.status_change instanceId .connecting] }
      | none => m1
    (m2, .initing r)
  | .initing r => (monitorStart m instanceId r, .done r)
  | .done r => (m, .done r)

/-- Which of the two racing `connect` calls the event loop resumes next. -/
inductive Tid
  | one
  | two
  deriving DecidableEq, Repr

/-- State of two interleaved `connect(instanceId)` calls. -/
structure RaceState where
  m : MState
  t1 : ConnPhase
  t2 : ConnPhase
  deriving DecidableEq, Repr

/-- Resume the chosen thread for one phase. -/
def raceStep (instanceId : String) (s : RaceState) : Tid → RaceState
  | .one =>
    let (m', p') := connThreadStep s.m instanceId s.t1
    { s with m := m', t1 := p' }
  | .two =>
    let (m', p') := connThreadStep s.m instanceId s.t2
    { s with m := m', t2 := p' }

/-- Run a schedule of thread resumptions. -/
def raceRun (instanceId : String) (s : RaceState) : List Tid → RaceState
  | [] => s
  | t :: rest => raceRun instanceId (raceStep instanceId s t) rest

/-- Both calls start at `connect`'s entry against the initial manager. -/
def raceInit : RaceState :=
  { m := mInit, t1 := .entry, t2 := .entry }

/-- The schedule in which the second `connect` begins (runs its synchronous
check block) while the first is suspended at the DB lookup inside
`createInstance`, after which each call runs to completion. -/
def raceSched : List Tid :=
  [.one, .two, .one, .one, .two, .two]

/-!
## Previous-generation settings handling (`whatsapp.old.ts`)

The current `whatsapp.ts` leaves `updateInstanceSettings` as an empty stub;
the always-online timer logic the spec describes lives in
`whatsapp.old.ts` (`updateInstanceSettings` 1140-1156 and
`handleAlwaysOnline` 1158-1190).  Interval timers are modelled explicitly:
`timers` is the multiset of live `setInterval` handles (handle, owning
instance id), `nextTimer` allocates fresh handles, and
`alwaysOnlineIntervals` is the manager's Map from instance id to the handle
of its periodic presence timer. -/

/-- `InstanceSettings` (`whatsapp.old.ts`). -/
structure InstanceSettings where
  alwaysOnline : Bool
  ignoreGroups : Bool
  rejectCalls : Bool
  readMessages : Bool
  syncFullHistory : Bool
  deriving DecidableEq, Repr

/-- The defaults used when no settings are stored yet
(`whatsapp.old.ts` 1141-1147). -/
def defaultSettings : InstanceSettings :=
  { alwaysOnline := false, ignoreGroups := false, rejectCalls := false
    readMessages := false, syncFullHistory := false }

/-- `Partial<InstanceSettings>`: each field optionally present. -/
structure PartialSettings where
  alwaysOnline : Option Bool := none
  ignoreGroups : Option Bool := none
  rejectCalls : Option Bool := none
  readMessages : Option Bool := none
  syncFullHistory : Option Bool := none
  deriving DecidableEq, Repr

/-- The spread `{ ...currentSettings, ...settings }`
(`whatsapp.old.ts` 1149). -/
def mergeSettings (cur : InstanceSettings) (p : PartialSettings) : InstanceSettings :=
  { alwaysOnline := p.alwaysOnline.getD cur.alwaysOnline
    ignoreGroups := p.ignoreGroups.getD cur.ignoreGroups
    rejectCalls := p.rejectCalls.getD cur.rejectCalls
    readMessages := p.readMessages.getD cur.readMessages
    syncFullHistory := p.syncFullHistory.getD cur.syncFullHistory }

/-- Settings-related state of the previous-generation manager. `clients`
lists the instance ids for which `getClient` returns a live client. -/
structure OldMgr where
  instanceSettings : List (String × InstanceSettings)
  alwaysOnlineIntervals : List (String × Nat)
  timers : List (Nat × String)
  nextTimer : Nat
  clients : List String
  deriving DecidableEq, Repr

/-- `clearInterval(handle)`: the timer with that handle stops firing. -/
def removeTimer : List (Nat × String) → Nat → List (Nat × String)
  | [], _ => []
  | (h, i) :: rest, t => if h = t then removeTimer rest t else (h, i) :: removeTimer rest t

/-- `handleAlwaysOnline` (`whatsapp.old.ts` 1158-1190): always clear the
existing interval for the id first; then, when enabling and a live client
exists, start one periodic presence interval and record its handle. -/
def handleAlwaysOnline (s : OldMgr) (instanceId : String) (enabled : Bool) : OldMgr :=
  let s1 :=
    match mapLookup instanceId s.alwaysOnlineIntervals with
    | some t =>
      { s with timers := removeTimer s.timers t
               alwaysOnlineIntervals := mapDelete instanceId s.alwaysOnlineIntervals }
    | none => s
  if enabled then
    if s1.clients.contains instanceId then
      { s1 with timers := s1.timers ++ [(s1.nextTimer, instanceId)]
                alwaysOnlineIntervals := mapSet instanceId s1.nextTimer s1.alwaysOnlineIntervals
                nextTimer := s1.nextTimer + 1 }
    else s1
  else s1

/-- `updateInstanceSettings` (`whatsapp.old.ts` 1140-1156): merge the partial
settings over the stored (or default) ones, store the result, then run
`handleAlwaysOnline` with the merged `alwaysOnline` flag. -/
def updateInstanceSettingsOld (s : OldMgr) (instanceId : String) (p : PartialSettings) :
    OldMgr :=
  let currentSettings := (mapLookup instanceId s.instanceSettings).getD defaultSettings
  let newSettings := mergeSettings currentSettings p
  let s1 := { s with instanceSettings := mapSet instanceId newSettings s.instanceSettings }
  handleAlwaysOnline s1 instanceId newSettings.alwaysOnline

/-- Apply a sequence of settings updates for one instance id. -/
def runToggles (s : OldMgr) (instanceId : String) : List PartialSettings → OldMgr
  | [] => s
  | p :: rest => runToggles (updateInstanceSettingsOld s instanceId p) instanceId rest

/-- Number of live periodic timers owned by the given instance id. -/
def countTimers : List (Nat × String) → String → Nat
  | [], _ => 0
  | (_, i) :: rest, instanceId =>
    (if i = instanceId then 1 else 0) + countTimers rest instanceId

/-- Previous-generation manager with no settings stored, no timers, and a
live client for the given id. -/
def oldInit (instanceId : String) : OldMgr :=
  { instanceSettings := [], alwaysOnlineIntervals := [], timers := []
    nextTimer := 0, clients := [instanceId] }

/-- The stored always-online flag for an id (defaults apply when unset). -/
def aoFlag (s : OldMgr) (instanceId : String) : Bool :=
  ((mapLookup instanceId s.instanceSettings).getD defaultSettings).alwaysOnline

/-!
## Concrete states and observations used by witnesses and counterexamples
-/

/-- A tick that observes nothing (page still loading). -/
def obsNone : PageObs :=
  { paneSide := false, canvas := false, canvasDataUrl := none
    wppAvailable := false, reinjectOk := false, err := false }

/-- A tick that observes the `#pane-side` connected marker with WPP loaded. -/
def obsConnected : PageObs :=
  { paneSide := true, canvas := false, canvasDataUrl := none
    wppAvailable := true, reinjectOk := true, err := false }

/-- A tick that observes a QR canvas with payload `QR1`. -/
def obsQR : PageObs :=
  { paneSide := false, canvas := true, canvasDataUrl := some "QR1"
    wppAvailable := false, reinjectOk := false, err := false }

/-- 122 ticks that observe nothing: enough for the monitor timeout. -/
def obs122 : List PageObs :=
  List.replicate 122 obsNone

/-- Manager state right after `connect("a")` returned: instance created and
`connecting`, background initialization not yet run. -/
def mConnecting : MState :=
  (connect mInit "a").2

/-- Manager state in which instance `a` shows a QR: `connect("a")`, the
background initialization, and one monitor tick observing a QR canvas. -/
def mShowingQR : MState :=
  run mInit [.connectAct "a", .bgInit "a" 0 (.success true), .tick 0 obsQR]

/-- Manager state in which instance `a` is connected: as above followed by a
tick observing the connected marker. -/
def mConnectedA : MState :=
  run mInit [.connectAct "a", .bgInit "a" 0 (.success true), .tick 0 obsQR,
    .tick 0 obsConnected]

/-- Settings update enabling `alwaysOnline`. -/
def pOn : PartialSettings :=
  { alwaysOnline := some true }

/-- Settings update disabling `alwaysOnline`. -/
def pOff : PartialSettings :=
  { alwaysOnline := some false }

/-- Whether the `j`-th monitor's interval is still scheduled. -/
def monitorActive (m : MState) (j : Nat) : Bool :=
  match listGet m.monitors j with
  | some mon => mon.active
  | none => false

/-- Run a sequence of ticks of the `j`-th monitor. -/
def runTicks (m : MState) (j : Nat) : List PageObs → MState
  | [] => m
  | obs :: rest => runTicks (monitorTick m j obs) j rest

/-- Manager state right after `connect("a")` and a successful background
initialization: the monitor has just been registered with `attempts = 0`. -/
def mMonStart : MState :=
  run mInit [.connectAct "a", .bgInit "a" 0 (.success true)]

/-- An instance object never holds a QR payload while connected. -/
def qrClear (inst : WAInstance) : Prop :=
  inst.status = .connected → inst.qrCode = none ∧ inst.qrCodeBase64 = none

/-- Every instance object in the heap satisfies `qrClear`. -/
def qrClearHeap (h : List WAInstance) : Prop :=
  ∀ r inst, listGet h r = some inst → qrClear inst

/-- Correlation invariant of the previous-generation always-online logic for
one instance id with a live client: the periodic-presence timer exists
exactly when the stored `alwaysOnline` flag is set, and there is never more
than one. -/
def aoInv (instanceId : String) (s : OldMgr) : Prop :=
  s.clients = [instanceId] ∧
    (if aoFlag s instanceId then
      ∃ t, s.alwaysOnlineIntervals = [(instanceId, t)] ∧ s.timers = [(t, instanceId)]
    else s.alwaysOnlineIntervals = [] ∧ s.timers = [])

/-!
## Supporting lemmas
-/

theorem mapLookup_mapSet_self {β : Type} (k : String) (v : β) (t : List (String × β)) :
    mapLookup k (mapSet k v t) = some v := by
  induction t with
  | nil => simp [mapSet, mapLookup]
  | cons hd rest ih =>
    obtain ⟨k', v'⟩ := hd
    by_cases h : k' = k
    · simp [mapSet, mapLookup, h]
    · simp [mapSet, mapLookup, h, ih]

theorem mapLookup_mapSet_ne {β : Type} (k k' : String) (v : β) (t : List (String × β))
    (h : k' ≠ k) : mapLookup k (mapSet k' v t) = mapLookup k t := by
  induction t with
  | nil => simp [mapSet, mapLookup, h]
  | cons hd rest ih =>
    obtain ⟨k'', v''⟩ := hd
    by_cases h2 : k'' = k'
    · subst h2
      simp [mapSet, mapLookup, h]
    · by_cases h3 : k'' = k
      · subst h3
        simp [mapSet, mapLookup, h2, Ne.symm h]
      · simp [mapSet, mapLookup, h2, h3, ih]

theorem mapLookup_mapDelete_self {β : Type} (k : String) (t : List (String × β)) :
    mapLookup k (mapDelete k t) = none := by
  induction t with
  | nil => simp [mapDelete, mapLookup]
  | cons hd rest ih =>
    obtain ⟨k', v⟩ := hd
    by_cases h : k' = k
    · simp [mapDelete, h, ih]
    · simp [mapDelete, mapLookup, h, ih]

theorem mapLookup_mapDelete_of_none {β : Type} (k k' : String) (t : List (String × β))
    (h : mapLookup k t = none) : mapLookup k (mapDelete k' t) = none := by
  induction t with
  | nil => simp [mapDelete, mapLookup]
  | cons hd rest ih =>
    obtain ⟨k'', v⟩ := hd
    by_cases h2 : k'' = k
    · simp [mapLookup, h2] at h
    · simp only [mapLookup, if_neg h2] at h
      by_cases h3 : k'' = k'
      · simp [mapDelete, h3, ih h]
      · simp [mapDelete, mapLookup, h2, h3, ih h]

theorem listGet_listSet_cases {α : Type} (l : List α) (n i : Nat) (v x : α)
    (h : listGet (listSet l n v) i = some x) : x = v ∨ listGet l i = some x := by
  induction l generalizing n i with
  | nil => simp [listSet, listGet] at h
  | cons hd rest ih =>
    cases n with
    | zero =>
      cases i with
      | zero => simp [listSet, listGet] at h; exact Or.inl h.symm
      | succ i' => exact Or.inr h
    | succ n' =>
      cases i with
      | zero => exact Or.inr h
      | succ i' => exact ih n' i' h

theorem listGet_append_cases {α : Type} (l : List α) (i : Nat) (v x : α)
    (h : listGet (l ++ [v]) i = some x) : x = v ∨ listGet l i = some x := by
  induction l generalizing i with
  | nil =>
    cases i with
    | zero => simp [listGet] at h; exact Or.inl h.symm
    | succ i' => cases i' <;> simp [listGet] at h
  | cons hd rest ih =>
    cases i with
    | zero => exact Or.inr h
    | succ i' => exact ih i' h

theorem listGet_listSet_self {α : Type} (l : List α) (n : Nat) (v y : α)
    (h : listGet l n = some y) : listGet (listSet l n v) n = some v := by
  induction l generalizing n with
  | nil => simp [listGet] at h
  | cons hd rest ih =>
    cases n with
    | zero => rfl
    | succ n' => exact ih n' h

theorem connectExisting_instances (m : MState) (instanceId : String) (r : Nat) :
    (connectExisting m instanceId r).2.instances = m.instances := by
  unfold connectExisting
  split
  · rfl
  · split <;> rfl

theorem monitorTick_instances (m : MState) (j : Nat) (obs : PageObs) :
    (monitorTick m j obs).instances = m.instances := by
  unfold monitorTick
  dsimp only
  repeat' split
  all_goals rfl

theorem initializeBackground_instances (m : MState) (instanceId : String) (r : Nat)
    (nav : NavResult) :
    (initializeBackground m instanceId r nav).instances = m.instances := by
  unfold initializeBackground initializePage monitorStart
  cases nav with
  | failure msg => rfl
  | success wppOk =>
    simp only []
    split <;> rfl

theorem sendMessage_instances (m : MState) (instanceId toDest content : String) :
    (sendMessage m instanceId toDest content).2.instances = m.instances := by
  unfold sendMessage
  dsimp only
  repeat' split
  all_goals rfl

theorem closeHandler_instances (m : MState) (instanceId : String) (r : Nat) :
    (closeHandler m instanceId r).instances = mapDelete instanceId m.instances := by
  unfold closeHandler
  rfl

/-- A missing Map entry stays missing under every step that is not a
`connect`/`createInstance` for that id. -/
theorem step_preserves_absent (m : MState) (instanceId : String) (a : MAction)
    (hnone : mapLookup instanceId m.instances = none)
    (hnc : isConnectFor instanceId a = false) :
    mapLookup instanceId (step m a).instances = none := by
  cases a with
  | createAct i =>
    have hne : i ≠ instanceId := by
      simpa [isConnectFor] using hnc
    simp only [step, createInstance]
    split
    · exact hnone
    · simpa [mapLookup_mapSet_ne instanceId i _ _ hne] using hnone
  | connectAct i =>
    have hne : i ≠ instanceId := by
      simpa [isConnectFor] using hnc
    simp only [step, connect]
    split
    · rw [connectExisting_instances]
      exact hnone
    · split
      · next e m' heq =>
        have h2 : (createInstance m i).2 = m' := by rw [heq]
        rw [← h2]
        simp only [createInstance]
        split
        · exact hnone
        · simpa [mapLookup_mapSet_ne instanceId i _ _ hne] using hnone
      · next r m' heq =>
        rw [connectExisting_instances]
        have h2 : (createInstance m i).2 = m' := by rw [heq]
        rw [← h2]
        simp only [createInstance]
        split
        · exact hnone
        · simpa [mapLookup_mapSet_ne instanceId i _ _ hne] using hnone
  | bgInit i r nav =>
    rw [step, initializeBackground_instances]
    exact hnone
  | closeCtx i r =>
    rw [step, closeHandler_instances]
    exact mapLookup_mapDelete_of_none _ _ _ hnone
  | tick j obs =>
    rw [step, monitorTick_instances]
    exact hnone
  | logoutAct i =>
    simp only [step, logout]
    split
    · exact hnone
    · rw [closeHandler_instances]
      exact mapLookup_mapDelete_of_none _ _ _
        (mapLookup_mapDelete_of_none _ _ _ hnone)
  | sendMessageAct i t c =>
    rw [step, sendMessage_instances]
    exact hnone

/-- A missing Map entry stays missing under every run without a
`connect`/`createInstance` for that id. -/
theorem run_preserves_absent (acts : List MAction) (m : MState) (instanceId : String)
    (hnone : mapLookup instanceId m.instances = none)
    (hnc : ∀ a ∈ acts, isConnectFor instanceId a = false) :
    mapLookup instanceId (run m acts).instances = none := by
  induction acts generalizing m with
  | nil => exact hnone
  | cons a rest ih =>
    rw [run]
    exact ih (step m a)
      (step_preserves_absent m instanceId a hnone (hnc a (List.mem_cons_self a rest)))
      (fun a' ha' => hnc a' (List.mem_cons_of_mem a ha'))

theorem qrClearHeap_listSet (h : List WAInstance) (r : Nat) (v : WAInstance)
    (hh : qrClearHeap h) (hv : qrClear v) : qrClearHeap (listSet h r v) := by
  intro i inst hi
  rcases listGet_listSet_cases h r i v inst hi with heq | hold
  · subst heq
    exact hv
  · exact hh i inst hold

theorem qrClearHeap_append (h : List WAInstance) (v : WAInstance)
    (hh : qrClearHeap h) (hv : qrClear v) : qrClearHeap (h ++ [v]) := by
  intro i inst hi
  rcases listGet_append_cases h i v inst hi with heq | hold
  · subst heq
    exact hv
  · exact hh i inst hold

theorem injectWPPScript_qrClear (inst : WAInstance) (wppOk : Bool) (hi : qrClear inst) :
    qrClear (injectWPPScript inst wppOk) := by
  unfold injectWPPScript
  split
  · intro hc
    exact hi hc
  · exact hi

theorem createInstance_qrClear (m : MState) (instanceId : String)
    (hh : qrClearHeap m.heap) : qrClearHeap (createInstance m instanceId).2.heap := by
  unfold createInstance
  split
  · exact hh
  · exact qrClearHeap_append _ _ hh (by intro hc; simp [newInstance] at hc)

theorem connectExisting_qrClear (m : MState) (instanceId : String) (r : Nat)
    (hh : qrClearHeap m.heap) : qrClearHeap (connectExisting m instanceId r).2.heap := by
  unfold connectExisting
  split
  · exact hh
  · split
    · exact hh
    · exact qrClearHeap_listSet _ _ _ hh (by intro hc; simp at hc)

theorem connect_qrClear (m : MState) (instanceId : String)
    (hh : qrClearHeap m.heap) : qrClearHeap (connect m instanceId).2.heap := by
  unfold connect
  split
  · exact connectExisting_qrClear _ _ _ hh
  · split
    · next e m' heq =>
      have h2 : (createInstance m instanceId).2 = m' := by rw [heq]
      rw [← h2]
      exact createInstance_qrClear _ _ hh
    · next r m' heq =>
      have h2 : (createInstance m instanceId).2 = m' := by rw [heq]
      apply connectExisting_qrClear
      rw [← h2]
      exact createInstance_qrClear _ _ hh

theorem initializeBackground_qrClear (m : MState) (instanceId : String) (rr : Nat)
    (nav : NavResult) (hh : qrClearHeap m.heap) :
    qrClearHeap (initializeBackground m instanceId rr nav).heap := by
  cases nav with
  | failure msg => exact hh
  | success wppOk =>
    unfold initializeBackground initializePage monitorStart
    dsimp only
    split
    · next inst heq =>
      exact qrClearHeap_listSet _ _ _ hh (injectWPPScript_qrClear inst wppOk (hh _ _ heq))
    · exact hh

theorem monitorTick_qrClear (m : MState) (j : Nat) (obs : PageObs)
    (hh : qrClearHeap m.heap) : qrClearHeap (monitorTick m j obs).heap := by
  unfold monitorTick
  dsimp only
  repeat' split
  all_goals first
    | exact hh
    | exact qrClearHeap_listSet _ _ _ hh (fun _ => ⟨rfl, rfl⟩)
    | exact qrClearHeap_listSet _ _ _ hh (by intro hc; simp at hc)

theorem closeHandler_qrClear (m : MState) (instanceId : String) (r : Nat)
    (hh : qrClearHeap m.heap) : qrClearHeap (closeHandler m instanceId r).heap := by
  unfold closeHandler
  dsimp only
  split
  · next inst heq => exact qrClearHeap_listSet _ _ _ hh (by intro hc; simp at hc)
  · exact hh

theorem logout_qrClear (m : MState) (instanceId : String)
    (hh : qrClearHeap m.heap) : qrClearHeap (logout m instanceId).heap := by
  unfold logout
  split
  · exact hh
  · next r heq => exact closeHandler_qrClear m instanceId r hh

theorem sendMessage_heap (m : MState) (instanceId toDest content : String) :
    (sendMessage m instanceId toDest content).2.heap = m.heap := by
  unfold sendMessage
  dsimp only
  repeat' split
  all_goals rfl

theorem step_qrClear (m : MState) (a : MAction) (hh : qrClearHeap m.heap) :
    qrClearHeap (step m a).heap := by
  cases a with
  | createAct i => exact createInstance_qrClear m i hh
  | connectAct i => exact connect_qrClear m i hh
  | bgInit i r nav => exact initializeBackground_qrClear m i r nav hh
  | closeCtx i r => exact closeHandler_qrClear m i r hh
  | tick j obs => exact monitorTick_qrClear m j obs hh
  | logoutAct i => exact logout_qrClear m i hh
  | sendMessageAct i t c =>
    show qrClearHeap (sendMessage m i t c).2.heap
    rw [sendMessage_heap]
    exact hh

theorem run_qrClear (acts : List MAction) (m : MState) (hh : qrClearHeap m.heap) :
    qrClearHeap (run m acts).heap := by
  induction acts generalizing m with
  | nil => exact hh
  | cons a rest ih => exact ih (step m a) (step_qrClear m a hh)

theorem monitorTick_timeout (m : MState) (j : Nat) (obs : PageObs) (mon : MonitorSt)
    (hget : listGet m.monitors j = some mon) (hact : mon.active = true)
    (hlt : 120 < mon.attempts) :
    monitorTick m j obs =
      { m with monitors := listSet m.monitors j { mon with active := false } } := by
  unfold monitorTick
  rw [hget]
  dsimp only
  rw [if_neg (by simp [hact]), if_pos hlt]

theorem monitorTick_work (m : MState) (j : Nat) (obs : PageObs) (mon : MonitorSt)
    (hget : listGet m.monitors j = some mon) (hact : mon.active = true)
    (hle : ¬ 120 < mon.attempts) :
    ∃ b, listGet (monitorTick m j obs).monitors j =
      some { mon with attempts := mon.attempts + 1, active := b } := by
  unfold monitorTick
  rw [hget]
  dsimp only
  rw [if_neg (by simp [hact]), if_neg hle]
  repeat' split
  all_goals first
    | exact ⟨mon.active, listGet_listSet_self _ _ _ _ hget⟩
    | exact ⟨false, listGet_listSet_self _ _ _ _ (listGet_listSet_self _ _ _ _ hget)⟩

theorem monitorTick_inactive (m : MState) (j : Nat) (obs : PageObs)
    (h : monitorActive m j = false) : monitorTick m j obs = m := by
  unfold monitorActive at h
  unfold monitorTick
  cases hget : listGet m.monitors j with
  | none => rfl
  | some mon =>
    rw [hget] at h
    dsimp only at h
    dsimp only
    rw [if_pos h]

theorem runTicks_inactive (obss : List PageObs) (m : MState) (j : Nat)
    (h : monitorActive m j = false) : runTicks m j obss = m := by
  induction obss with
  | nil => rfl
  | cons obs rest ih =>
    rw [runTicks, monitorTick_inactive m j obs h]
    exact ih

theorem runTicks_deactivates (obss : List PageObs) :
    ∀ (m : MState) (j : Nat) (mon : MonitorSt),
      listGet m.monitors j = some mon → mon.active = true →
      1 ≤ obss.length → 122 ≤ mon.attempts + obss.length →
      monitorActive (runTicks m j obss) j = false := by
  induction obss with
  | nil =>
    intro m j mon _ _ h1 _
    simp at h1
  | cons obs rest ih =>
    intro m j mon hget hact hlen hbound
    rw [runTicks]
    by_cases hlt : 120 < mon.attempts
    · rw [monitorTick_timeout m j obs mon hget hact hlt]
      have hfalse : monitorActive
          { m with monitors := listSet m.monitors j { mon with active := false } } j
            = false := by
        unfold monitorActive
        rw [show listGet (listSet m.monitors j { mon with active := false }) j
              = some { mon with active := false } from listGet_listSet_self _ _ _ _ hget]
      rw [runTicks_inactive rest _ j hfalse]
      exact hfalse
    · obtain ⟨b, hget'⟩ := monitorTick_work m j obs mon hget hact hlt
      cases b with
      | false =>
        have hfalse : monitorActive (monitorTick m j obs) j = false := by
          unfold monitorActive
          rw [hget']
        rw [runTicks_inactive rest _ j hfalse]
        exact hfalse
      | true =>
        have hA : mon.attempts ≤ 120 := Nat.le_of_not_lt hlt
        have hbound' : 122 ≤ mon.attempts + (rest.length + 1) := by
          simpa using hbound
        refine ih (monitorTick m j obs) j _ hget' rfl ?_ ?_
        · show 1 ≤ rest.length
          omega
        · show 122 ≤ mon.attempts + 1 + rest.length
          omega

theorem aoFlag_updateOld (s : OldMgr) (instanceId : String) (p : PartialSettings) :
    aoFlag (updateInstanceSettingsOld s instanceId p) instanceId =
      (mergeSettings ((mapLookup instanceId s.instanceSettings).getD defaultSettings) p).alwaysOnline := by
  unfold updateInstanceSettingsOld handleAlwaysOnline aoFlag
  dsimp only
  repeat' split
  all_goals simp [mapLookup_mapSet_self]

theorem handleAO_shape (s : OldMgr) (instanceId : String) (b : Bool)
    (hc : s.clients = [instanceId])
    (hshape : (s.alwaysOnlineIntervals = [] ∧ s.timers = []) ∨
      ∃ t, s.alwaysOnlineIntervals = [(instanceId, t)] ∧ s.timers = [(t, instanceId)]) :
    (handleAlwaysOnline s instanceId b).clients = [instanceId] ∧
      (if b then
        ∃ t, (handleAlwaysOnline s instanceId b).alwaysOnlineIntervals = [(instanceId, t)] ∧
          (handleAlwaysOnline s instanceId b).timers = [(t, instanceId)]
      else (handleAlwaysOnline s instanceId b).alwaysOnlineIntervals = [] ∧
        (handleAlwaysOnline s instanceId b).timers = []) := by
  rcases hshape with ⟨hint, htim⟩ | ⟨t, hint, htim⟩
  · have hlook : mapLookup instanceId s.alwaysOnlineIntervals = none := by
      rw [hint]
      rfl
    unfold handleAlwaysOnline
    rw [hlook]
    dsimp only
    cases b with
    | true =>
      rw [if_pos rfl, if_pos (by rw [hc]; simp)]
      refine ⟨hc, ?_⟩
      rw [if_pos rfl]
      refine ⟨s.nextTimer, ?_, ?_⟩
      · show mapSet instanceId s.nextTimer s.alwaysOnlineIntervals = [(instanceId, s.nextTimer)]
        rw [hint]
        rfl
      · show s.timers ++ [(s.nextTimer, instanceId)] = [(s.nextTimer, instanceId)]
        rw [htim]
        rfl
    | false =>
      rw [if_neg (by simp)]
      refine ⟨hc, ?_⟩
      rw [if_neg (by simp)]
      exact ⟨hint, htim⟩
  · have hlook : mapLookup instanceId s.alwaysOnlineIntervals = some t := by
      rw [hint]
      simp [mapLookup]
    unfold handleAlwaysOnline
    rw [hlook]
    dsimp only
    cases b with
    | true =>
      rw [if_pos rfl, if_pos (by rw [hc]; simp)]
      refine ⟨hc, ?_⟩
      rw [if_pos rfl]
      refine ⟨s.nextTimer, ?_, ?_⟩
      · show mapSet instanceId s.nextTimer (mapDelete instanceId s.alwaysOnlineIntervals)
            = [(instanceId, s.nextTimer)]
        rw [hint]
        simp [mapDelete, mapSet]
      · show removeTimer s.timers t ++ [(s.nextTimer, instanceId)] = [(s.nextTimer, instanceId)]
        rw [htim]
        simp [removeTimer]
    | false =>
      rw [if_neg (by simp)]
      refine ⟨hc, ?_⟩
      rw [if_neg (by simp)]
      constructor
      · show mapDelete instanceId s.alwaysOnlineIntervals = []
        rw [hint]
        simp [mapDelete]
      · show removeTimer s.timers t = []
        rw [htim]
        simp [removeTimer]

theorem updateOld_aoInv (s : OldMgr) (instanceId : String) (p : PartialSettings)
    (hJ : aoInv instanceId s) :
    aoInv instanceId (updateInstanceSettingsOld s instanceId p) := by
  obtain ⟨hc, hshape⟩ := hJ
  have hshape2 : (s.alwaysOnlineIntervals = [] ∧ s.timers = []) ∨
      ∃ t, s.alwaysOnlineIntervals = [(instanceId, t)] ∧ s.timers = [(t, instanceId)] := by
    by_cases hflag : aoFlag s instanceId
    · rw [if_pos hflag] at hshape
      exact Or.inr hshape
    · rw [if_neg hflag] at hshape
      exact Or.inl hshape
  have hflag2 := aoFlag_updateOld s instanceId p
  unfold updateInstanceSettingsOld at hflag2 ⊢
  dsimp only at hflag2 ⊢
  unfold aoInv
  have hres := handleAO_shape { s with instanceSettings := mapSet instanceId (mergeSettings ((mapLookup instanceId s.instanceSettings).getD defaultSettings) p) s.instanceSettings } instanceId (mergeSettings ((mapLookup instanceId s.instanceSettings).getD defaultSettings) p).alwaysOnline hc hshape2
  constructor
  · exact hres.1
  · rw [hflag2]
    exact hres.2

theorem aoInv_oldInit (instanceId : String) : aoInv instanceId (oldInit instanceId) := by
  unfold aoInv oldInit aoFlag
  simp [mapLookup, defaultSettings]

theorem runToggles_aoInv (ps : List PartialSettings) (s : OldMgr) (instanceId : String)
    (hJ : aoInv instanceId s) : aoInv instanceId (runToggles s instanceId ps) := by
  induction ps generalizing s with
  | nil => exact hJ
  | cons p rest ih => exact ih _ (updateOld_aoInv s instanceId p hJ)

theorem countTimers_single (t : Nat) (instanceId : String) :
    countTimers [(t, instanceId)] instanceId = 1 := by
  simp [countTimers]

theorem reconnectAllTrace_map (ids : List String) (t : Nat) :
    reconnectAllTrace ids t = ids.map (fun instanceId => (instanceId, t)) := by
  induction ids with
  | nil => rfl
  | cons id rest ih =>
    show (id, t) :: reconnectAllTrace rest t = (id, t) :: rest.map (fun instanceId => (instanceId, t))
    rw [ih]

theorem reconnectAllOldTrace_strictIncr (ids : List String) :
    ∀ t, strictIncrB (List.map Prod.snd (reconnectAllOldTrace ids t)) = true := by
  induction ids with
  | nil => intro t; rfl
  | cons id rest ih =>
    intro t
    cases rest with
    | nil => rfl
    | cons b rs =>
      show strictIncrB (t :: List.map Prod.snd (reconnectAllOldTrace (b :: rs) (t + 2000))) = true
      have hhead : ∃ l, List.map Prod.snd (reconnectAllOldTrace (b :: rs) (t + 2000))
          = (t + 2000) :: l := by
        cases rs with
        | nil => exact ⟨[], rfl⟩
        | cons c cs => exact ⟨_, rfl⟩
      obtain ⟨l, hl⟩ := hhead
      have htail := ih (t + 2000)
      rw [hl] at htail
      rw [hl]
      show (decide (t < t + 2000) && strictIncrB ((t + 2000) :: l)) = true
      rw [htail, Bool.and_true, decide_eq_true_eq]
      omega

/-!
## Claims
-/

/-- Claim C1 (the code violates it): two `connect("a")` calls that overlap —
the second running its synchronous duplicate checks while the first is
suspended at the `await prisma.instance.findUnique(...)` inside
`createInstance` — both miss the Map, so the run builds two browser
contexts/instance objects (heap length 2), the second `instances.set`
overwrites the first (the Map points at object 1), and two monitor polling
loops end up started for the same id. -/
theorem c1_connect_race_two_monitors :
    monitorsFor (raceRun "a" raceInit raceSched).m "a" = 2
  ∧ (raceRun "a" raceInit raceSched).m.heap.length = 2
  ∧ mapLookup "a" (raceRun "a" raceInit raceSched).m.instances = some 1
  ∧ ¬ monitorsFor (raceRun "a" raceInit raceSched).m "a" ≤ 1 := by
  decide

/-- Claim C2: once a session's context-close event has been handled, the
Session entry is deleted and a `disconnected` event has been emitted, and at
every later point before a new `connect`/`createInstance` for that id —
whatever monitor ticks or other actions run, including ticks that were in
flight — `getStatus` returns `not_found` (hence `disconnected` or
`not_found`) and never `connected`. -/
theorem c2_close_event_wins (m : MState) (instanceId : String) (r : Nat)
    (acts : List MAction)
    (hnc : ∀ a ∈ acts, isConnectFor instanceId a = false) :
    getStatus (run (closeHandler m instanceId r) acts) instanceId = .not_found
  ∧ getStatus (run (closeHandler m instanceId r) acts) instanceId ≠ .status .connected
  ∧ mapLookup instanceId (closeHandler m instanceId r).instances = none
  ∧ (closeHandler m instanceId r).events = m.events ++ [.disconnected instanceId] := by
  have hdel : mapLookup instanceId (closeHandler m instanceId r).instances = none := by
    rw [closeHandler_instances]
    exact mapLookup_mapDelete_self _ _
  have habs := run_preserves_absent acts (closeHandler m instanceId r) instanceId hdel hnc
  have hnf : getStatus (run (closeHandler m instanceId r) acts) instanceId = .not_found := by
    unfold getStatus
    rw [habs]
  refine ⟨hnf, ?_, hdel, rfl⟩
  rw [hnf]
  intro hcontra
  cases hcontra

/-- Witness for C2: instance `a` was connected, its context closes, and two
in-flight monitor ticks (one even observing the connected marker) still run
afterwards. -/
theorem c2_close_event_wins_witness :
    getStatus (run (closeHandler mConnectedA "a" 0) [.tick 0 obsConnected, .tick 0 obsQR]) "a"
        = .not_found
  ∧ getStatus (run (closeHandler mConnectedA "a" 0) [.tick 0 obsConnected, .tick 0 obsQR]) "a"
        ≠ .status .connected
  ∧ mapLookup "a" (closeHandler mConnectedA "a" 0).instances = none
  ∧ (closeHandler mConnectedA "a" 0).events = mConnectedA.events ++ [.disconnected "a"] :=
  c2_close_event_wins mConnectedA "a" 0 [.tick 0 obsConnected, .tick 0 obsQR] (by decide)

/-- Claim C3 as stated is refuted: `sendMedia` is an unimplemented stub, so
invoking it while instance `a` is in status `qr` (not `connected`) returns
success with no error and no state change, instead of failing with the
`NotConnected` error. -/
theorem c3_counterexample_sendMedia_succeeds :
    getStatus mShowingQR "a" = .status .qr
  ∧ sendMedia mShowingQR "a" "5511999999999" "http://example.com/img.png"
      = (.ok (), mShowingQR) := by
  decide

/-- Claim C3 (amended): `sendMessage` and its alias `sendText` fail with the
`Instance not connected` error and perform no bridge call (the state is
unchanged) whenever the instance's status is not `connected`; every other
facade operation of the current manager is an unimplemented stub that
performs no bridge call either, but returns success regardless of status. -/
theorem c3_amended_not_connected_guard (m : MState) (instanceId toDest content : String)
    (h : getStatus m instanceId ≠ .status .connected) :
    sendMessage m instanceId toDest content = (.error "Instance not connected", m)
  ∧ sendText m instanceId toDest content = (.error "Instance not connected", m)
  ∧ (∀ u, sendMedia m instanceId toDest u = (.ok (), m))
  ∧ (∀ la lo, sendLocation m instanceId toDest la lo = (.ok (), m))
  ∧ (∀ cid, sendContact m instanceId toDest cid = (.ok (), m))
  ∧ (∀ ttl opts, sendPoll m instanceId toDest ttl opts = (.ok (), m))
  ∧ (∀ pres, sendPresence m instanceId toDest pres = (.ok (), m))
  ∧ (∀ mid txt, editMessage m instanceId mid txt = (.ok (), m))
  ∧ (∀ mid rct, reactToMessage m instanceId mid rct = (.ok (), m))
  ∧ (∀ mid fe, deleteMessage m instanceId mid fe = (.ok (), m))
  ∧ (∀ n ps, createGroup m instanceId n ps = (.ok (), m))
  ∧ (∀ cid, archiveChat m instanceId cid = (.ok (), m)) := by
  have hsm : sendMessage m instanceId toDest content = (.error "Instance not connected", m) := by
    unfold getStatus at h
    unfold sendMessage
    cases hl : mapLookup instanceId m.instances with
    | none => rfl
    | some r =>
      rw [hl] at h
      dsimp only at h ⊢
      cases hg : listGet m.heap r with
      | none => rfl
      | some inst =>
        rw [hg] at h
        dsimp only at h ⊢
        have hne : ¬ inst.status = Status.connected := fun hc => h (by rw [hc])
        rw [if_neg hne]
  exact ⟨hsm, hsm, fun _ => rfl, fun _ _ => rfl, fun _ => rfl, fun _ _ => rfl, fun _ => rfl,
    fun _ _ => rfl, fun _ _ => rfl, fun _ _ => rfl, fun _ _ => rfl, fun _ => rfl⟩

/-- Witness for the amended C3 at a concrete state whose status is `qr`. -/
theorem c3_amended_witness :
    sendMessage mShowingQR "a" "5511" "hello" = (.error "Instance not connected", mShowingQR) :=
  (c3_amended_not_connected_guard mShowingQR "a" "5511" "hello" (by decide)).1

/-- Claim C4 (the code violates it): when navigation fails during background
initialization, the `try/catch` inside `initializePage` swallows the error
after logging it, so `initializePage` resolves normally (`.ok`), the
rejection handler in `connect` that would set the status back to
`disconnected` never fires, and the session's status remains `connecting`
rather than reverting to `disconnected`. -/
theorem c4_init_failure_keeps_connecting :
    initializePage mConnecting "a" 0 (.failure "ERR_NAME_NOT_RESOLVED") = .ok mConnecting
  ∧ initializeBackground mConnecting "a" 0 (.failure "ERR_NAME_NOT_RESOLVED") = mConnecting
  ∧ getStatus (initializeBackground mConnecting "a" 0 (.failure "ERR_NAME_NOT_RESOLVED")) "a"
      = .status .connecting
  ∧ getStatus (initializeBackground mConnecting "a" 0 (.failure "ERR_NAME_NOT_RESOLVED")) "a"
      ≠ .status .disconnected := by
  decide

/-- Claim C5 as stated is refuted: the current `reconnectAll` fires all
connect calls in one synchronous loop with no delay, so with two previously
connected instances both connects begin at time 0 — the start times are not
strictly increasing. -/
theorem c5_counterexample_same_tick :
    reconnectAllTrace ["a", "b"] 0 = [("a", 0), ("b", 0)]
  ∧ strictIncrB (List.map Prod.snd (reconnectAllTrace ["a", "b"] 0)) = false := by
  decide

/-- Claim C5 (amended): the current `reconnectAll` issues a fire-and-forget
`connect` for every previously connected instance, in order, with zero delay
— all connects begin in the same tick; the staggered, strictly increasing
start times the claim describes are implemented only by the
previous-generation `reconnectAll`, which waits 2000 ms between successive
instances. -/
theorem c5_amended_reconnect_behaviour :
    (∀ (ids : List String) (t : Nat),
        reconnectAllTrace ids t = ids.map (fun instanceId => (instanceId, t)))
  ∧ (∀ (ids : List String) (t : Nat),
        strictIncrB (List.map Prod.snd (reconnectAllOldTrace ids t)) = true) :=
  ⟨reconnectAllTrace_map, fun ids t => reconnectAllOldTrace_strictIncr ids t⟩

/-- Claim C6: in every state reachable from the initial manager, whenever
`getStatus` reports `connected` for an id, `getQRCode` returns empty for it —
the QR payload is cleared on the transition to `connected` and never served
again while the session stays connected. -/
theorem c6_connected_qr_empty (acts : List MAction) (instanceId : String)
    (h : getStatus (run mInit acts) instanceId = .status .connected) :
    getQRCode (run mInit acts) instanceId = (none, none) := by
  have hinv : qrClearHeap (run mInit acts).heap :=
    run_qrClear acts mInit (fun r inst hr => nomatch hr)
  unfold getStatus at h
  unfold getQRCode
  cases hl : mapLookup instanceId (run mInit acts).instances with
  | none =>
    rw [hl] at h
  | some r =>
    rw [hl] at h
    dsimp only at h ⊢
    cases hg : listGet (run mInit acts).heap r with
    | none =>
      rw [hg] at h
    | some inst =>
      rw [hg] at h
      dsimp only at h ⊢
      have hst : inst.status = .connected := StatusResult.status.inj h
      obtain ⟨h1, h2⟩ := hinv r inst hg hst
      rw [h1, h2]

/-- Witness for C6: `connect("a")`, initialization, a QR tick, then the
connected tick — the previously stored QR payload is no longer served. -/
theorem c6_connected_qr_empty_witness :
    getQRCode (run mInit [.connectAct "a", .bgInit "a" 0 (.success true), .tick 0 obsQR,
      .tick 0 obsConnected]) "a" = (none, none) :=
  c6_connected_qr_empty
    [.connectAct "a", .bgInit "a" 0 (.success true), .tick 0 obsQR, .tick 0 obsConnected]
    "a" (by decide)

/-- Claim C7 as stated is refuted: `updateInstanceSettings` in the current
manager is an empty stub, so toggling `alwaysOnline` on, then off, then on
again leaves zero periodic presence timers, not exactly one. -/
theorem c7_counterexample_stub_no_timer :
    updateInstanceSettings (updateInstanceSettings (updateInstanceSettings mConnectedA "a"
        [("alwaysOnline", true)]) "a" [("alwaysOnline", false)]) "a" [("alwaysOnline", true)]
      = mConnectedA
  ∧ mConnectedA.alwaysOnlineIntervals.length = 0
  ∧ ¬ mConnectedA.alwaysOnlineIntervals.length = 1 := by
  decide

/-- Claim C7 (amended): in the current manager `updateInstanceSettings` is a
no-op stub (no toggle sequence ever creates or cancels a presence timer);
the claimed behaviour is implemented by the previous-generation
`handleAlwaysOnline`: for an instance with a live client, any sequence of
settings updates leaves exactly one periodic presence timer when the final
`alwaysOnline` state is enabled and zero when disabled, and repeated enables
never stack a second timer. -/
theorem c7_amended_alwaysOnline :
    (∀ (m : MState) (instanceId : String) (settings : List (String × Bool)),
        updateInstanceSettings m instanceId settings = m)
  ∧ (∀ (instanceId : String) (ps : List PartialSettings),
        countTimers (runToggles (oldInit instanceId) instanceId ps).timers instanceId
          = if aoFlag (runToggles (oldInit instanceId) instanceId ps) instanceId then 1
            else 0) := by
  constructor
  · intro m instanceId settings
    rfl
  · intro instanceId ps
    have hJ := runToggles_aoInv ps (oldInit instanceId) instanceId (aoInv_oldInit instanceId)
    obtain ⟨hc, hshape⟩ := hJ
    by_cases hflag : aoFlag (runToggles (oldInit instanceId) instanceId ps) instanceId = true
    · rw [if_pos hflag] at hshape ⊢
      obtain ⟨t, hint, htim⟩ := hshape
      rw [htim]
      exact countTimers_single t instanceId
    · rw [if_neg hflag] at hshape ⊢
      rw [hshape.2]
      rfl

/-- Claim C8: the monitor polling loop is bounded — from a fresh monitor, at
most 122 ticks can run before the interval is cleared, whatever the page
observations are; and the tick that hits the `attempts > 120` timeout only
clears the interval, leaving the rest of the state (in particular every
session's status) unchanged. -/
theorem c8_monitor_bounded_polling :
    (∀ (m : MState) (j : Nat) (mon : MonitorSt) (obss : List PageObs),
        listGet m.monitors j = some mon → mon.active = true →
        1 ≤ obss.length → 122 ≤ mon.attempts + obss.length →
        monitorActive (runTicks m j obss) j = false)
  ∧ (∀ (m : MState) (j : Nat) (mon : MonitorSt) (obs : PageObs),
        listGet m.monitors j = some mon → mon.active = true → 120 < mon.attempts →
        monitorTick m j obs =
          { m with monitors := listSet m.monitors j { mon with active := false } }
        ∧ ∀ instanceId, getStatus (monitorTick m j obs) instanceId = getStatus m instanceId) := by
  constructor
  · intro m j mon obss hget hact hlen hbound
    exact runTicks_deactivates obss m j mon hget hact hlen hbound
  · intro m j mon obs hget hact hlt
    have heq := monitorTick_timeout m j obs mon hget hact hlt
    refine ⟨heq, ?_⟩
    intro instanceId
    rw [heq]
    rfl

/-- Witness for C8: a freshly started monitor for instance `a` is inactive
after 122 ticks that observe nothing. -/
theorem c8_monitor_bounded_polling_witness :
    monitorActive (runTicks mMonStart 0 obs122) 0 = false :=
  c8_monitor_bounded_polling.1 mMonStart 0
    { ref := 0, instanceId := "a", attempts := 0, active := true } obs122
    (by decide) rfl (by decide) (by decide)

/-- Claim C9: calling `createInstance` for an id that already has a live
Session entry throws `Instance <id> already exists` and leaves the manager
state unchanged; after an intervening teardown (`logout`, which closes the
context and removes the entry) it succeeds. -/
theorem c9_createInstance_already_exists (m : MState) (instanceId : String)
    (h : (mapLookup instanceId m.instances).isSome = true) :
    (createInstance m instanceId).1 = .error ("Instance " ++ instanceId ++ " already exists")
  ∧ (createInstance m instanceId).2 = m
  ∧ (createInstance (logout m instanceId) instanceId).1
      = .ok (logout m instanceId).heap.length := by
  refine ⟨?_, ?_, ?_⟩
  · unfold createInstance
    rw [if_pos h]
  · unfold createInstance
    rw [if_pos h]
  · have hnone : mapLookup instanceId (logout m instanceId).instances = none := by
      unfold logout
      cases hl : mapLookup instanceId m.instances with
      | none =>
        rw [hl] at h
        cases h
      | some r =>
        dsimp only
        exact mapLookup_mapDelete_self _ _
    unfold createInstance
    rw [hnone]
    rfl

/-- Witness for C9: instance `a` already live (status `connecting`). -/
theorem c9_createInstance_already_exists_witness :
    (createInstance mConnecting "a").1 = .error ("Instance " ++ "a" ++ " already exists")
  ∧ (createInstance mConnecting "a").2 = mConnecting
  ∧ (createInstance (logout mConnecting "a") "a").1
      = .ok (logout mConnecting "a").heap.length :=
  c9_createInstance_already_exists mConnecting "a" (by decide)

/-- Claim C10: on a connected instance with the bridge loaded, `sendMessage`
invokes the in-page bridge with a chat id resolved by the rule: use the
destination verbatim when it contains `@`, else append `@c.us`; and
`resolveChatId` implements the same rule. -/
theorem c10_chat_id_rule (m : MState) (instanceId toDest content : String) (r : Nat)
    (inst : WAInstance)
    (h1 : mapLookup instanceId m.instances = some r)
    (h2 : listGet m.heap r = some inst)
    (h3 : inst.status = .connected)
    (h4 : inst.wppLoaded = true) :
    (sendMessage m instanceId toDest content).1 = .ok (resolveChatId toDest)
  ∧ (sendMessage m instanceId toDest content).2.bridgeCalls
      = m.bridgeCalls
          ++ [{ fn := "sendTextMessage", chatId := resolveChatId toDest, content := content }]
  ∧ resolveChatId toDest = (if toDest.contains '@' then toDest else toDest ++ "@c.us") := by
  unfold sendMessage
  rw [h1]
  dsimp only
  rw [h2]
  dsimp only
  rw [if_pos h3, if_pos h4]
  exact ⟨rfl, rfl, rfl⟩

/-- Witness for C10 on a concrete connected instance and a bare number. -/
theorem c10_chat_id_rule_witness :
    (sendMessage mConnectedA "a" "5511999999999" "hello").1
      = .ok (resolveChatId "5511999999999") :=
  (c10_chat_id_rule mConnectedA "a" "5511999999999" "hello" 0
    { id := "a", status := .connected, qrCode := none, qrCodeBase64 := none, wppLoaded := true }
    (by decide) (by decide) rfl rfl).1

end WhatsAppGateway
